import Mathlib

/-!
# Verification of the libultrahdr_dev core against its specification

Shallow embedding of the gain-map pipeline (`lib/src/ultrahdr.cpp`),
the geometric editor (`lib/src/editorhelper.cpp`) and the assembler
slots, with theorems settling the frozen claims.

Modelling conventions:
* byte / word buffers are total functions `Nat → Nat`; a load of a
  `uint8_t` (resp. `uint16_t`) is taken modulo `2^8` (resp. `2^16`)
  where the width matters;
* nullable C pointers are `Option`; fallible functions return
  `Except Status _`;
* the per-pixel floating-point colour pipeline (YUV→RGB matrices,
  OETF curves, `encodeGain`/`applyGain`) is abstracted as an opaque
  function parameter: the claims under verification only concern
  validation, descriptors, metadata and the integer pixel paths.
-/

namespace UltraHdrSpec

/-- `ultrahdr_pixel_format` from ultrahdr.h. -/
inductive PixelFormat
  | P010
  | YUV420
  | MONOCHROME
  | RGBA8888
  | RGBAF16
  | RGBA1010102
  deriving DecidableEq, Repr

/-- `ultrahdr_color_gamut` from ultrahdr.h. -/
inductive Gamut
  | BT709
  | P3
  | BT2100
  | UNSPECIFIED
  deriving DecidableEq, Repr

/-- `ultrahdr_transfer_function`; `OTHER` stands for any value outside
the three supported tags, hitting the `default:` branch of the switch. -/
inductive TransferFunction
  | LINEAR
  | HLG
  | PQ
  | OTHER
  deriving DecidableEq, Repr

/-- The status codes (`status_t`) used by the embedded functions. -/
inductive Status
  | NO_ERROR
  | BAD_PTR
  | RESOLUTION_MISMATCH
  | INVALID_COLORGAMUT
  | INVALID_TRANS_FUNC
  | BAD_METADATA
  | UNSUPPORTED_MAP_SCALE_FACTOR
  | INVALID_CROPPING_PARAMETERS
  | UNSUPPORTED_FEATURE
  | INSUFFICIENT_RESOURCE
  | DECODE_ERROR
  deriving DecidableEq, Repr

/-- `ultrahdr_output_format` of `applyGainMap`. -/
inductive OutputFormat
  | HDR_LINEAR
  | HDR_LINEAR_RGB_10BIT
  | HDR_HLG
  | HDR_PQ
  deriving DecidableEq, Repr

/-- A raw memory buffer: contents as a total function from index to
stored value (bytes for 8-bit planes, 16-bit words for P010 planes). -/
def Buf : Type := Nat → Nat

/-- `ultrahdr_uncompressed_struct`: pixel-buffer descriptor.  `data` and
`chromaData` are `none` when the corresponding C pointer is null; when
`chromaData` is null the code derives chroma from `data` at an offset. -/
structure UImg where
  width : Nat
  height : Nat
  gamut : Gamut
  pixelFormat : PixelFormat
  lumaStride : Nat
  chromaStride : Nat
  data : Option Buf
  chromaData : Option Buf

/-- `ultrahdr_metadata_struct`.  The float scalars are modelled as
rationals (the source values involved in the claims are exact). -/
structure Metadata where
  version : String
  maxContentBoost : ℚ
  minContentBoost : ℚ
  gamma : ℚ
  offsetSdr : ℚ
  offsetHdr : ℚ
  hdrCapacityMin : ℚ
  hdrCapacityMax : ℚ
  deriving DecidableEq, Repr

/-! ## Constants

`kMapDimensionScaleFactor` and `kGainMapVersion` are defined in
ultrahdr.h; the three white-point constants live in `gainmapmath.h`,
which is not among the provided sources, and are modelled from the
spec. -/

/-- `static const size_t kMapDimensionScaleFactor = 4` (ultrahdr.h):
the map is quarter res / sixteenth size. -/
def kMapDimensionScaleFactor : Nat := 4

/-- Modelled from the spec: `sdrWhiteNits = 203` (`kSdrWhiteNits` of
gainmapmath.h, which is not among the provided sources). -/
def kSdrWhiteNits : ℚ := 203

/-- Modelled from the spec: `hdrWhiteNits = 1000` for HLG/LINEAR
(`kHlgMaxNits` of gainmapmath.h, which is not among the provided
sources). -/
def kHlgMaxNits : ℚ := 1000

/-- Modelled from the spec: `hdrWhiteNits = 10000` for PQ
(`kPqMaxNits` of gainmapmath.h, which is not among the provided
sources). -/
def kPqMaxNits : ℚ := 10000

/-- `static const char* const kGainMapVersion = "1.0"` (ultrahdr.h):
the gain-map metadata version that is encoded and accepted. -/
def kGainMapVersion : String := "1.0"

/-! ## isJpeg (ultrahdr.cpp lines 69-82) -/

/-- `isJpeg(data, len)`: the file-type sniff used by
`UltraHdr::addImage(ultrahdr_compressed_struct*)`.  Bytes are read as
`uint8_t`, hence `% 256`.  The C condition is
`data[0] == 0xFF && data[1] == 0xD8 || data[2] == 0xFF`, where `&&`
binds tighter than `||`. -/
def isJpeg (data : Option Buf) (len : Nat) : Bool :=
  match data with
  | none => false
  | some d =>
    if len < 3 then false
    else if (d 0 % 256 == 0xFF && d 1 % 256 == 0xD8) || d 2 % 256 == 0xFF then true
    else false

/-! ## toneMap (ultrahdr.cpp lines 517-558) -/

/-- The sample reduction of the tone mapper: a P010 16-bit word `v`
becomes `(v >> 6) >> 2 & 0xff` (`v` read as `uint16_t`). -/
def toneMapSample (v : Nat) : Nat := ((v % 65536) >>> 6 >>> 2) &&& 0xff

/-- Luma plane written by `toneMap`: row `y < height` holds the reduced
samples at `x < width` followed by the zeroed stride padding
(`memset` when `width != luma_stride`); all other positions keep the
previous contents `old` of the destination buffer. -/
def toneMapLumaBuf (srcY : Buf) (srcStride : Nat) (w h dstStride : Nat)
    (old : Buf) : Buf :=
  fun idx =>
    let y := idx / dstStride
    let x := idx % dstStride
    if y < h then
      if x < w then toneMapSample (srcY (y * srcStride + x)) else 0
    else old idx

/-- Chroma buffer written by `toneMap`: interleaved source UV words are
split into a U region at offset 0 and a V region at offset
`chroma_stride * height / 2`, with zeroed stride padding per row. -/
def toneMapChromaBuf (srcUV : Buf) (srcStride : Nat) (w h dstStride : Nat)
    (old : Buf) : Buf :=
  fun idx =>
    let voff := dstStride * h / 2
    if idx < voff then
      let y := idx / dstStride
      let x := idx % dstStride
      if y < h / 2 then
        if x < w / 2 then toneMapSample (srcUV (y * srcStride + (x <<< 1))) else 0
      else old idx
    else
      let j := idx - voff
      let y := j / dstStride
      let x := j % dstStride
      if y < h / 2 then
        if x < w / 2 then toneMapSample (srcUV (y * srcStride + (x <<< 1) + 1)) else 0
      else old idx

/-- `UltraHdr::toneMap(src, dest)`.  Null `src`/`dest` struct pointers
give `BAD_PTR` (the data pointers are not checked by the source; a null
data pointer would be dereferenced, modelled as reading/overwriting a
zero buffer).  On success the destination holds the reduced planes and
the source gamut. -/
def toneMap (src dest : Option UImg) : Except Status UImg :=
  match src, dest with
  | none, _ => .error .BAD_PTR
  | _, none => .error .BAD_PTR
  | some s, some d =>
    if s.width ≠ d.width ∨ s.height ≠ d.height then .error .RESOLUTION_MISMATCH
    else
      let srcY := s.data.getD (fun _ => 0)
      let srcUV := s.chromaData.getD (fun _ => 0)
      let oldY := d.data.getD (fun _ => 0)
      let oldC := d.chromaData.getD (fun _ => 0)
      .ok { d with
        data := some (toneMapLumaBuf srcY s.lumaStride s.width s.height d.lumaStride oldY)
        chromaData := some
          (toneMapChromaBuf srcUV s.chromaStride s.width s.height d.chromaStride oldC)
        gamut := s.gamut }

/-! ## generateGainMap (ultrahdr.cpp lines 185-358) -/

/-- Result of `generateGainMap`: the gain-map image written through
`dest` and the metadata written through `metadata`. -/
structure GenGainMapResult where
  dest : UImg
  metadata : Metadata

/-- `hdr_white_nits` selected by the switch on `hdr_tf`
(LINEAR and HLG use `kHlgMaxNits`, PQ uses `kPqMaxNits`). -/
def hdrWhiteNitsOf : TransferFunction → ℚ
  | .PQ => kPqMaxNits
  | _ => kHlgMaxNits

/-- `UltraHdr::generateGainMap(yuv420, p010, hdr_tf, metadata, dest, sdr_is_601)`.

`metadataNull` / `destNull` model null out-parameter pointers.
`encodePixel x y` abstracts the per-pixel floating-point pipeline
(`sampleYuv420` / `sampleP010`, YUV→RGB, inverse OETFs, luminances and
`encodeGain`), which the claims do not inspect; the row-tile worker
loop writes `encodeGain(...)` at `pixel_idx = x + y * dest->width` for
every `y < map_height`, `x < map_width`, so the freshly allocated
buffer holds `encodePixel (idx % map_width) (idx / map_width)`. -/
def generateGainMap (encodePixel : Nat → Nat → Nat)
    (yuv420 p010 : Option UImg) (hdrTf : TransferFunction)
    (metadataNull destNull : Bool) : Except Status GenGainMapResult :=
  match yuv420, p010 with
  | some yuv420, some p010 =>
    if metadataNull || destNull || yuv420.data.isNone || yuv420.chromaData.isNone
        || p010.data.isNone || p010.chromaData.isNone then
      .error .BAD_PTR
    else if yuv420.width ≠ p010.width ∨ yuv420.height ≠ p010.height then
      .error .RESOLUTION_MISMATCH
    else if yuv420.gamut = .UNSPECIFIED ∨ p010.gamut = .UNSPECIFIED then
      .error .INVALID_COLORGAMUT
    else
      let imageWidth := yuv420.width
      let imageHeight := yuv420.height
      let mapWidth := imageWidth / kMapDimensionScaleFactor
      let mapHeight := imageHeight / kMapDimensionScaleFactor
      let dest : UImg := {
        width := mapWidth
        height := mapHeight
        gamut := .UNSPECIFIED
        pixelFormat := .MONOCHROME
        lumaStride := mapWidth
        chromaStride := 0
        data := some (fun idx => encodePixel (idx % mapWidth) (idx / mapWidth))
        chromaData := none }
      match hdrTf with
      | .OTHER => .error .INVALID_TRANS_FUNC
      | tf =>
        let hdrWhiteNits := hdrWhiteNitsOf tf
        let maxBoost := hdrWhiteNits / kSdrWhiteNits
        .ok {
          dest := dest
          metadata := {
            version := kGainMapVersion
            maxContentBoost := maxBoost
            minContentBoost := 1
            gamma := 1
            offsetSdr := 0
            offsetHdr := 0
            hdrCapacityMin := 1
            hdrCapacityMax := maxBoost } }
  | _, _ => .error .BAD_PTR

/-! ## applyGainMap (ultrahdr.cpp lines 360-515) -/

/-- The metadata checks of `applyGainMap` (lines 369-386); any of these
yields `BAD_METADATA`. -/
def metadataRejected (m : Metadata) : Prop :=
  m.version ≠ kGainMapVersion ∨ m.gamma ≠ 1 ∨
  m.offsetSdr ≠ 0 ∨ m.offsetHdr ≠ 0 ∨
  m.hdrCapacityMin ≠ m.minContentBoost ∨ m.hdrCapacityMax ≠ m.maxContentBoost

instance (m : Metadata) : Decidable (metadataRejected m) :=
  inferInstanceAs (Decidable (m.version ≠ kGainMapVersion ∨ m.gamma ≠ 1 ∨
    m.offsetSdr ≠ 0 ∨ m.offsetHdr ≠ 0 ∨
    m.hdrCapacityMin ≠ m.minContentBoost ∨ m.hdrCapacityMax ≠ m.maxContentBoost))

/-- The null-pointer condition of `applyGainMap` (lines 364-368): the
struct pointers, the SDR data and chroma pointers, and the gain-map
data pointer.  The destination data pointer is NOT in this list. -/
def applyGainMapNullArgs (yuv420 gainmap : Option UImg)
    (metadata : Option Metadata) (dest : Option UImg) : Prop :=
  yuv420 = none ∨ gainmap = none ∨ metadata = none ∨ dest = none ∨
  (∃ y, yuv420 = some y ∧ (y.data = none ∨ y.chromaData = none)) ∨
  (∃ g, gainmap = some g ∧ g.data = none)


/-- `UltraHdr::applyGainMap(yuv420, gainmap, metadata, output_format,
max_display_boost, dest)`.

`applyPixel idx` abstracts the per-pixel floating-point reconstruction
(BT.601 YUV→RGB, sRGB inverse OETF, gain-map sampling, `applyGain`,
output packing), which the claims do not inspect.  The validation
chain, the descriptor updates and the returned status follow the
source; on success every output pixel index is written. -/
def applyGainMap (applyPixel : Nat → Nat)
    (yuv420 gainmap : Option UImg) (metadata : Option Metadata)
    (outputFormat : OutputFormat) (maxDisplayBoost : ℚ)
    (dest : Option UImg) : Except Status UImg :=
  match yuv420, gainmap, metadata, dest with
  | some y, some g, some m, some d =>
    if y.data.isNone || y.chromaData.isNone || g.data.isNone then
      .error .BAD_PTR
    else if m.version ≠ kGainMapVersion then .error .BAD_METADATA
    else if m.gamma ≠ 1 then .error .BAD_METADATA
    else if m.offsetSdr ≠ 0 ∨ m.offsetHdr ≠ 0 then .error .BAD_METADATA
    else if m.hdrCapacityMin ≠ m.minContentBoost ∨
        m.hdrCapacityMax ≠ m.maxContentBoost then .error .BAD_METADATA
    else if y.width % g.width ≠ 0 ∨ y.height % g.height ≠ 0 then
      .error .UNSUPPORTED_MAP_SCALE_FACTOR
    else if y.width * g.height ≠ y.height * g.width then
      .error .UNSUPPORTED_MAP_SCALE_FACTOR
    else
      .ok { d with
        width := y.width
        height := y.height
        gamut := y.gamut
        data := some (fun idx => applyPixel idx) }
  | _, _, _, _ => .error .BAD_PTR

/-! ## Geometric editor (editorhelper.cpp)

Each operation writes into the caller-supplied output allocation; the
output buffer is modelled as the old contents overwritten by the loop
writes.  `planeWrite h w s f old` is the double loop
`for i < h, for j < w: buf[i*s + j] = f i j` (the loops of the source
always have `w ≤ s`, so each cell is written at most once);
`planeWriteAt` is the same loop at a byte offset `base`, used for the
chroma regions that live at `out->data + luma_stride * height`. -/

/-- Effective luma stride: `in_img->luma_stride != 0 ? ... : width`. -/
def effLumaStride (img : UImg) : Nat :=
  if img.lumaStride ≠ 0 then img.lumaStride else img.width

/-- Effective chroma stride: `chroma_stride != 0 ? ... : luma >> 1`. -/
def effChromaStride (img : UImg) (lumaStride : Nat) : Nat :=
  if img.chromaStride ≠ 0 then img.chromaStride else lumaStride >>> 1

/-- Chroma source plane: `in_img->chroma_data`, or
`in_img->data + luma_stride * height` when the chroma pointer is null. -/
def chromaSrc (img : UImg) (lumaStride : Nat) : Buf :=
  match img.chromaData with
  | some c => c
  | none => fun k => (img.data.getD (fun _ => 0)) (lumaStride * img.height + k)

/-- `for i < h: for j < w: buf[i*s + j] := f i j`, over old contents. -/
def planeWrite (h w s : Nat) (f : Nat → Nat → Nat) (old : Buf) : Buf :=
  fun idx => if idx / s < h ∧ idx % s < w then f (idx / s) (idx % s) else old idx

/-- `planeWrite` at byte offset `base` inside the output allocation. -/
def planeWriteAt (base h w s : Nat) (f : Nat → Nat → Nat) (old : Buf) : Buf :=
  fun idx =>
    if base ≤ idx ∧ (idx - base) / s < h ∧ (idx - base) % s < w then
      f ((idx - base) / s) ((idx - base) % s)
    else old idx

/-- `ultrahdr_mirroring_direction`. -/
inductive MirrorDir
  | VERTICAL
  | HORIZONTAL
  deriving DecidableEq, Repr

/-- The output-record builder shared by `crop` and `resize`: the luma
double loop writes `oH x oW` cells at stride `oS`, and (for YUV 4:2:0)
a SINGLE chroma loop writes `oH` rows (the source iterates the chroma
copy over the full output height, exactly as written) of `oW/2` cells
at stride `oS/2`, at byte offset `oS*oH` of the same allocation. -/
def writePlanesOut1 (i o : UImg) (oW oH oS : Nat)
    (fL fC : Nat → Nat → Nat) : UImg :=
  let old := o.data.getD (fun _ => 0)
  let lumaBuf := planeWrite oH oW oS fL old
  if i.pixelFormat = .MONOCHROME then
    { o with
      gamut := i.gamut, pixelFormat := i.pixelFormat
      width := oW, height := oH, lumaStride := oS, data := some lumaBuf }
  else
    let oCS := oS / 2
    let base := oS * oH
    let buf := planeWriteAt base oH (oW / 2) oCS fC lumaBuf
    { o with
      gamut := i.gamut, pixelFormat := i.pixelFormat
      width := oW, height := oH, lumaStride := oS, chromaStride := oCS
      data := some buf, chromaData := some (fun k => buf (base + k)) }

/-- The output-record builder shared by `mirror` and `rotate`: a luma
loop of `oH x oW` cells at stride `oS`, then (for YUV 4:2:0) a U loop
and a V loop of `oH/2` rows and `oW/2` cells each at stride `oS/2`, at
byte offsets `oS*oH` and `oS*oH + (oS/2)*(oH/2)`. -/
def writePlanesOut2 (i o : UImg) (oW oH oS : Nat)
    (fL fU fV : Nat → Nat → Nat) : UImg :=
  let old := o.data.getD (fun _ => 0)
  let lumaBuf := planeWrite oH oW oS fL old
  if i.pixelFormat = .MONOCHROME then
    { o with
      gamut := i.gamut, pixelFormat := i.pixelFormat
      width := oW, height := oH, lumaStride := oS, data := some lumaBuf }
  else
    let oCS := oS / 2
    let base := oS * oH
    let bufU := planeWriteAt base (oH / 2) (oW / 2) oCS fU lumaBuf
    let buf := planeWriteAt (base + oCS * (oH / 2)) (oH / 2) (oW / 2) oCS fV bufU
    { o with
      gamut := i.gamut, pixelFormat := i.pixelFormat
      width := oW, height := oH, lumaStride := oS, chromaStride := oCS
      data := some buf, chromaData := some (fun k => buf (base + k)) }

/-- `crop(in_img, left, right, top, bottom, out_img)`
(editorhelper.cpp lines 26-76). -/
def crop (inImg : Option UImg) (left right top bottom : Int)
    (outImg : Option UImg) : Except Status UImg :=
  match inImg, outImg with
  | some i, some o =>
    if i.data.isNone || o.data.isNone then .error .BAD_PTR
    -- the C comparisons promote the ints to size_t, so a negative
    -- right/bottom also fails the `>= width/height` test
    else if left < 0 ∨ right < 0 ∨ right ≥ (i.width : Int) ∨ top < 0 ∨
        bottom < 0 ∨ bottom ≥ (i.height : Int) then
      .error .INVALID_CROPPING_PARAMETERS
    else if i.pixelFormat ≠ .YUV420 ∧ i.pixelFormat ≠ .MONOCHROME then
      .error .UNSUPPORTED_FEATURE
    else
      let inS := effLumaStride i
      let inL := i.data.getD (fun _ => 0)
      let inCS := effChromaStride i inS
      let inC := chromaSrc i inS
      let oW := (right - left + 1).toNat
      let oH := (bottom - top + 1).toNat
      let l := left.toNat
      let t := top.toNat
      .ok (writePlanesOut1 i o oW oH oW
        (fun y x => inL ((t + y) * inS + (l + x)))
        (fun y x => inC ((t / 2 + y) * inCS + (l / 2 + x))))
  | _, _ => .error .BAD_PTR

/-- `mirror(in_img, mirror_dir, out_img)` (editorhelper.cpp lines
78-170).  Row/column reversal is expressed per written destination
cell, which visits the same cells once each as the source loops do. -/
def mirror (inImg : Option UImg) (dir : MirrorDir)
    (outImg : Option UImg) : Except Status UImg :=
  match inImg, outImg with
  | some i, some o =>
    if i.data.isNone || o.data.isNone then .error .BAD_PTR
    else if i.pixelFormat ≠ .YUV420 ∧ i.pixelFormat ≠ .MONOCHROME then
      .error .UNSUPPORTED_FEATURE
    else
      let inS := effLumaStride i
      let inL := i.data.getD (fun _ => 0)
      let inCS := effChromaStride i inS
      let inC := chromaSrc i inS
      let vOff := inCS * (i.height / 2)
      match dir with
      | .VERTICAL =>
        .ok (writePlanesOut2 i o i.width i.height inS
          (fun y x => inL ((i.height - 1 - y) * inS + x))
          (fun y x => inC ((i.height / 2 - 1 - y) * inCS + x))
          (fun y x => inC (vOff + (i.height / 2 - 1 - y) * inCS + x)))
      | .HORIZONTAL =>
        .ok (writePlanesOut2 i o i.width i.height inS
          (fun y x => inL (y * inS + (i.width - x - 1)))
          (fun y x => inC (y * inCS + (i.width / 2 - x - 1)))
          (fun y x => inC (vOff + y * inCS + (i.width / 2 - x - 1))))
  | _, _ => .error .BAD_PTR

/-- `rotate(in_img, clockwise_degree, out_img)`
(editorhelper.cpp lines 172-306). -/
def rotate (inImg : Option UImg) (clockwiseDegree : Int)
    (outImg : Option UImg) : Except Status UImg :=
  match inImg, outImg with
  | some i, some o =>
    if i.data.isNone || o.data.isNone then .error .BAD_PTR
    else if clockwiseDegree ≠ 90 ∧ clockwiseDegree ≠ 180 ∧
        clockwiseDegree ≠ 270 then
      .error .INVALID_CROPPING_PARAMETERS
    else if i.pixelFormat ≠ .YUV420 ∧ i.pixelFormat ≠ .MONOCHROME then
      .error .UNSUPPORTED_FEATURE
    else
      let inS := effLumaStride i
      let inL := i.data.getD (fun _ => 0)
      let inCS := effChromaStride i inS
      let inC := chromaSrc i inS
      let vOff := inCS * (i.height / 2)
      if clockwiseDegree = 90 then
        .ok (writePlanesOut2 i o i.height i.width i.height
          (fun y x => inL ((i.height - x - 1) * inS + y))
          (fun y x => inC ((i.height / 2 - x - 1) * inCS + y))
          (fun y x => inC (vOff + (i.height / 2 - x - 1) * inCS + y)))
      else if clockwiseDegree = 180 then
        .ok (writePlanesOut2 i o i.width i.height inS
          (fun y x => inL ((i.height - y - 1) * inS + (i.width - x - 1)))
          (fun y x => inC ((i.height / 2 - y - 1) * inCS + (i.width / 2 - x - 1)))
          (fun y x => inC (vOff + (i.height / 2 - y - 1) * inCS +
            (i.width / 2 - x - 1))))
      else
        .ok (writePlanesOut2 i o i.height i.width i.height
          (fun y x => inL (x * inS + (i.width - y - 1)))
          (fun y x => inC (x * inCS + (i.width / 2 - y - 1)))
          (fun y x => inC (vOff + x * inCS + (i.width / 2 - y - 1))))
  | _, _ => .error .BAD_PTR

/-- `resize(in_img, out_width, out_height, out_img)`
(editorhelper.cpp lines 308-360).  The nearest-neighbour source index
`i * in_h / out_h * stride + j * in_w / out_w` is evaluated
left-to-right as in C. -/
def resize (inImg : Option UImg) (outWidth outHeight : Int)
    (outImg : Option UImg) : Except Status UImg :=
  match inImg, outImg with
  | some i, some o =>
    if i.data.isNone || o.data.isNone then .error .BAD_PTR
    else if i.pixelFormat ≠ .YUV420 ∧ i.pixelFormat ≠ .MONOCHROME then
      .error .UNSUPPORTED_FEATURE
    else
      let inS := effLumaStride i
      let inL := i.data.getD (fun _ => 0)
      let inCS := effChromaStride i inS
      let inC := chromaSrc i inS
      let oW := outWidth.toNat
      let oH := outHeight.toNat
      .ok (writePlanesOut1 i o oW oH oW
        (fun y x => inL (y * i.height / oH * inS + x * i.width / oW))
        (fun y x => inC (y * i.height / oH * inCS + x * i.width / oW)))
  | _, _ => .error .BAD_PTR

/-! ## addEffects (editorhelper.cpp lines 362-446) -/

/-- `ultrahdr_effect` and its four derived variants. -/
inductive UEffect
  | cropE (left right top bottom : Int)
  | mirrorE (dir : MirrorDir)
  | rotateE (clockwiseDegree : Int)
  | resizeE (newWidth newHeight : Int)
  deriving DecidableEq, Repr

/-- The `size` variable computed in each `dynamic_cast` branch of the
loop before invoking the operation. -/
def effectSize (e : UEffect) (lastImg : UImg) (isSingleChannel : Bool) : Nat :=
  let s :=
    match e with
    | .cropE l r t b => ((b - t + 1) * (r - l + 1)).toNat
    | .mirrorE _ => lastImg.width * lastImg.height
    | .rotateE _ => lastImg.width * lastImg.height
    | .resizeE nw nh => (nw * nh).toNat
  if isSingleChannel then s else s * 3 / 2

/-- The operation invoked for an effect; its status is DISCARDED by
`addEffects`, exactly as in the source. -/
def applyOneEffect (e : UEffect) (lastImg tmpIn : UImg) : Except Status UImg :=
  match e with
  | .cropE l r t b => crop (some lastImg) l r t b (some tmpIn)
  | .mirrorE d => mirror (some lastImg) d (some tmpIn)
  | .rotateE deg => rotate (some lastImg) deg (some tmpIn)
  | .resizeE nw nh => resize (some lastImg) nw nh (some tmpIn)

/-- The effect loop of `addEffects`.  `tmp` is the stack-allocated
`ultrahdr_uncompressed_struct tmp` reused across iterations; each
iteration points its `data` at a fresh allocation whose uninitialized
contents are modelled by `junk`.  When the operation fails its status
is ignored and `tmp` keeps its previous descriptor over the fresh
(garbage) allocation; the deep-copy then copies `size` bytes of it into
the caller's output and the loop continues. -/
def addEffectsLoop (junk : Buf) (isSingleChannel : Bool) :
    List UEffect → UImg → UImg → UImg → UImg
  | [], _, _, out => out
  | e :: rest, tmp, lastImg, out =>
    let size := effectSize e lastImg isSingleChannel
    let tmpIn : UImg := { tmp with data := some junk }
    let tmpOut :=
      match applyOneEffect e lastImg tmpIn with
      | .ok t => t
      | .error _ => tmpIn
    let newData : Buf := fun idx =>
      if idx < size then (tmpOut.data.getD junk) idx else (out.data.getD junk) idx
    let outNext : UImg := { out with
      width := tmpOut.width, height := tmpOut.height, gamut := tmpOut.gamut
      pixelFormat := tmpOut.pixelFormat, lumaStride := tmpOut.lumaStride
      chromaStride := tmpOut.chromaStride
      data := some newData
      chromaData := if isSingleChannel then out.chromaData
        else some (fun k => newData (tmpOut.lumaStride * tmpOut.height + k)) }
    addEffectsLoop junk isSingleChannel rest tmpOut outNext outNext

/-- `addEffects(in_img, effects, out_img)` (editorhelper.cpp lines
362-446).  `tmp0` models the uninitialized stack struct `tmp` and
`junk` the uninitialized heap allocations.  After the pointer check the
function ALWAYS returns `NO_ERROR`: the statuses of the individual
operations are discarded. -/
def addEffects (junk : Buf) (tmp0 : UImg) (inImg : Option UImg)
    (effects : List UEffect) (outImg : Option UImg) : Except Status UImg :=
  match inImg, outImg with
  | some i, some o =>
    if i.data.isNone || o.data.isNone then .error .BAD_PTR
    else
      let isSingleChannel := i.pixelFormat = .MONOCHROME
      let size := if isSingleChannel then i.width * i.height
        else i.width * i.height * 3 / 2
      let out0 : UImg := { o with
        width := i.width, height := i.height, gamut := i.gamut
        pixelFormat := i.pixelFormat, lumaStride := i.lumaStride
        chromaStride := i.chromaStride
        data := some (fun idx =>
          if idx < size then (i.data.getD junk) idx else (o.data.getD junk) idx) }
      .ok (addEffectsLoop junk isSingleChannel effects tmp0 i out0)
  | _, _ => .error .BAD_PTR

/-! ## Assembler slots: addImage(ultrahdr_uncompressed_struct*)
(ultrahdr.cpp lines 751-808) -/

/-- The two raw slots of `UltraHdr` touched by
`addImage(ultrahdr_uncompressed_struct*)`. -/
structure UltraHdrState where
  hdrRawImg : Option UImg
  sdrRawImg : Option UImg

/-- The copy stored in `hdr_raw_img` for a P010 input: `width*height*3`
bytes are copied, a zero luma stride is replaced by the width, and the
(always null, since `make_shared` value-initializes it) chroma pointer
is pointed at `data + luma_stride*height` in `uint16_t` units, i.e.
byte offset `2*(luma_stride*height)`, with `chroma_stride :=
luma_stride`. -/
def p010Copy (image : UImg) : UImg :=
  let size := image.width * image.height * 3
  let d : Buf := fun idx => if idx < size then (image.data.getD (fun _ => 0)) idx else 0
  let ls := if image.lumaStride = 0 then image.width else image.lumaStride
  { width := image.width, height := image.height, gamut := image.gamut
    pixelFormat := image.pixelFormat
    lumaStride := ls
    chromaStride := ls
    data := some d
    chromaData := some (fun k => d (2 * (ls * image.height) + k)) }

/-- The copy stored in `sdr_raw_img` for a YUV420 input:
`width*height*3/2` bytes are copied, a zero luma stride is replaced by
the width, and the chroma pointer is pointed at
`data + luma_stride*height` with `chroma_stride := luma_stride >> 1`. -/
def yuv420Copy (image : UImg) : UImg :=
  let size := image.width * image.height * 3 / 2
  let d : Buf := fun idx => if idx < size then (image.data.getD (fun _ => 0)) idx else 0
  let ls := if image.lumaStride = 0 then image.width else image.lumaStride
  { width := image.width, height := image.height, gamut := image.gamut
    pixelFormat := image.pixelFormat
    lumaStride := ls
    chromaStride := ls >>> 1
    data := some d
    chromaData := some (fun k => d (ls * image.height + k)) }

/-- `UltraHdr::addImage(ultrahdr_uncompressed_struct*)`: first-writer
slots for the raw HDR (P010) and raw SDR (YUV420) images.  (The C null
check `image == nullptr && image->data == nullptr` dereferences the
null pointer it tests; the evidently intended rejection is modelled.)
A populated slot is left untouched and the call still reports
`NO_ERROR`. -/
def addImageUncompressed (st : UltraHdrState) (image : Option UImg) :
    Status × UltraHdrState :=
  match image with
  | none => (.BAD_PTR, st)
  | some img =>
    match img.pixelFormat with
    | .P010 =>
      match st.hdrRawImg with
      | none => (.NO_ERROR, { st with hdrRawImg := some (p010Copy img) })
      | some _ => (.NO_ERROR, st)
    | .YUV420 =>
      match st.sdrRawImg with
      | none => (.NO_ERROR, { st with sdrRawImg := some (yuv420Copy img) })
      | some _ => (.NO_ERROR, st)
    | _ => (.UNSUPPORTED_FEATURE, st)

/-! ## Index helper lemmas -/

/-- Row-major flat index: quotient recovers the row. -/
theorem flatIdx_div (y x s : Nat) (hx : x < s) : (y * s + x) / s = y := by
  have hs : 0 < s := lt_of_le_of_lt (Nat.zero_le x) hx
  rw [Nat.mul_comm y s, Nat.mul_add_div hs, Nat.div_eq_of_lt hx, Nat.add_zero]

/-- Row-major flat index: remainder recovers the column. -/
theorem flatIdx_mod (y x s : Nat) (hx : x < s) : (y * s + x) % s = x := by
  rw [Nat.mul_comm y s, Nat.mul_add_mod, Nat.mod_eq_of_lt hx]

/-- Reading back a cell written by the double loop `planeWrite`. -/
theorem planeWrite_get (h w s : Nat) (f : Nat → Nat → Nat) (old : Buf)
    (y x : Nat) (hy : y < h) (hx : x < w) (hws : w ≤ s) :
    planeWrite h w s f old (y * s + x) = f y x := by
  have hxs : x < s := lt_of_lt_of_le hx hws
  unfold planeWrite
  rw [flatIdx_div y x s hxs, flatIdx_mod y x s hxs]
  simp [hy, hx]

/-- A cell written by the double loop lies below the chroma base
offset of the same allocation. -/
theorem flatIdx_lt (y x s h : Nat) (hy : y < h) (hx : x < s) :
    y * s + x < s * h := by
  calc y * s + x < y * s + s := by omega
    _ = (y + 1) * s := by ring
    _ ≤ h * s := Nat.mul_le_mul_right s hy
    _ = s * h := Nat.mul_comm h s

/-- `planeWriteAt` leaves every index below its base untouched. -/
theorem planeWriteAt_below (base h w s : Nat) (f : Nat → Nat → Nat)
    (old : Buf) (idx : Nat) (hidx : idx < base) :
    planeWriteAt base h w s f old idx = old idx := by
  unfold planeWriteAt
  rw [if_neg]
  exact fun hc => absurd hidx (Nat.not_lt.mpr hc.1)

/-! ## Concrete fixtures for witnesses and counterexamples -/

/-- All-zero byte buffer. -/
def zeroBuf : Buf := fun _ => 0

/-- Trivial stand-in for the abstracted per-pixel encoder. -/
def encZero : Nat → Nat → Nat := fun _ _ => 0

/-- 8x8 SDR YUV 4:2:0 test image. -/
def sdrImg8 : UImg :=
  { width := 8, height := 8, gamut := .BT709, pixelFormat := .YUV420
    lumaStride := 8, chromaStride := 4
    data := some zeroBuf, chromaData := some zeroBuf }

/-- 8x8 HDR P010 test image. -/
def hdrImg8 : UImg :=
  { sdrImg8 with pixelFormat := .P010, gamut := .BT2100, chromaStride := 8 }

/-- 2x2 monochrome gain map (integral scale factor 4 w.r.t. 8x8). -/
def mapImg2 : UImg :=
  { width := 2, height := 2, gamut := .UNSPECIFIED, pixelFormat := .MONOCHROME
    lumaStride := 2, chromaStride := 0
    data := some zeroBuf, chromaData := none }

/-- 6x6 SDR image: its width is NOT a multiple of a 4-wide map. -/
def sdrImg6 : UImg :=
  { sdrImg8 with width := 6, height := 6, lumaStride := 6, chromaStride := 3 }

/-- 4x4 monochrome gain map. -/
def mapImg4 : UImg := { mapImg2 with width := 4, height := 4, lumaStride := 4 }

/-- Metadata satisfying every `applyGainMap` precondition. -/
def goodMeta : Metadata :=
  { version := "1.0", maxContentBoost := 2, minContentBoost := 1, gamma := 1
    offsetSdr := 0, offsetHdr := 0, hdrCapacityMin := 1, hdrCapacityMax := 2 }

/-- A destination whose struct pointer is valid but whose `data`
pointer is null. -/
def destNoData : UImg := { sdrImg8 with data := none }

/-- 8x8 monochrome test image. -/
def monoImg8 : UImg :=
  { width := 8, height := 8, gamut := .BT709, pixelFormat := .MONOCHROME
    lumaStride := 8, chromaStride := 0
    data := some zeroBuf, chromaData := none }

/-- Arbitrary contents of the uninitialized stack struct `tmp`. -/
def tmpUninit : UImg :=
  { width := 0, height := 0, gamut := .UNSPECIFIED, pixelFormat := .RGBA8888
    lumaStride := 0, chromaStride := 0, data := none, chromaData := none }

/-! ## Claims -/

/-- C8 (amended): `isJpeg` classifies a non-null buffer of length ≥ 3
as JPEG exactly when its prefix is the SOI marker 0xFF 0xD8 OR its
third byte is 0xFF; the stray `|| data[2] == 0xFF` disjunct widens the
sniff beyond the SOI prefix. -/
theorem isJpeg_sniff (d : Buf) (len : Nat) :
    isJpeg (some d) len = true ↔
      3 ≤ len ∧ ((d 0 % 256 = 0xFF ∧ d 1 % 256 = 0xD8) ∨ d 2 % 256 = 0xFF) := by
  unfold isJpeg
  dsimp only
  rcases Nat.lt_or_ge len 3 with h1 | h1
  · rw [if_pos h1]
    simp only [Bool.false_eq_true, false_iff, not_and]
    intro h2
    omega
  · rw [if_neg (Nat.not_lt.mpr h1)]
    constructor
    · intro h2
      refine ⟨h1, ?_⟩
      by_cases hc :
          ((d 0 % 256 == 0xFF && d 1 % 256 == 0xD8) || d 2 % 256 == 0xFF) = true
      · simpa using hc
      · rw [if_neg hc] at h2
        exact absurd h2 (by simp)
    · rintro ⟨_, h2⟩
      have hc :
          ((d 0 % 256 == 0xFF && d 1 % 256 == 0xD8) || d 2 % 256 == 0xFF) = true := by
        rcases h2 with ⟨ha, hb⟩ | hc
        · simp [ha, hb]
        · simp [hc]
      rw [if_pos hc]

/-- A buffer that does not start with the SOI marker and carries no
ISOBMFF brand but whose third byte is 0xFF. -/
def nonSoiBuf : Buf := fun i => if i = 2 then 0xFF else 0

/-- C8 counterexample: `nonSoiBuf` is classified as JPEG although its
prefix is not the SOI marker, refuting the "exactly when the prefix is
SOI" claim. -/
theorem isJpeg_counterexample :
    isJpeg (some nonSoiBuf) 3 = true ∧
      ¬(nonSoiBuf 0 % 256 = 0xFF ∧ nonSoiBuf 1 % 256 = 0xD8) := by
  exact ⟨by decide, by decide⟩

/-- C7: `addEffects` with a Rotate(900) effect returns success —
`rotate` itself rejects 900 with `INVALID_CROPPING_PARAMETERS`, but
`addEffects` discards that status and reports `NO_ERROR`, the silent
no-op the spec forbids. -/
theorem addEffects_rotate900_silent_success :
    (addEffects zeroBuf tmpUninit (some monoImg8) [.rotateE 900]
        (some monoImg8)).isOk = true ∧
      rotate (some monoImg8) 900 (some monoImg8) =
        .error .INVALID_CROPPING_PARAMETERS := by
  exact ⟨rfl, rfl⟩

/-- C9: `addImage(ultrahdr_uncompressed_struct*)` is first-writer-wins:
the first P010 (resp. YUV420) call populates `hdr_raw_img` (resp.
`sdr_raw_img`) with the deep copy, and any later call with the same
pixel format returns `NO_ERROR` leaving the whole state unchanged. -/
theorem addImage_first_writer_wins (st : UltraHdrState) (img prev : UImg) :
    (img.pixelFormat = .P010 → st.hdrRawImg = some prev →
      addImageUncompressed st (some img) = (.NO_ERROR, st)) ∧
    (img.pixelFormat = .P010 → st.hdrRawImg = none →
      addImageUncompressed st (some img) =
        (.NO_ERROR, { st with hdrRawImg := some (p010Copy img) })) ∧
    (img.pixelFormat = .YUV420 → st.sdrRawImg = some prev →
      addImageUncompressed st (some img) = (.NO_ERROR, st)) ∧
    (img.pixelFormat = .YUV420 → st.sdrRawImg = none →
      addImageUncompressed st (some img) =
        (.NO_ERROR, { st with sdrRawImg := some (yuv420Copy img) })) := by
  refine ⟨?_, ?_, ?_, ?_⟩ <;> intro hf hs <;>
    simp [addImageUncompressed, hf, hs]

/-- C9 witness: a second P010 submission against an already-populated
HDR slot is accepted with `NO_ERROR` and changes nothing. -/
theorem addImage_first_writer_wins_witness :
    hdrImg8.pixelFormat = .P010 ∧
      addImageUncompressed
        { hdrRawImg := some (p010Copy hdrImg8), sdrRawImg := none }
        (some hdrImg8) =
      (.NO_ERROR, { hdrRawImg := some (p010Copy hdrImg8), sdrRawImg := none }) := by
  refine ⟨rfl, ?_⟩
  exact (addImage_first_writer_wins
    { hdrRawImg := some (p010Copy hdrImg8), sdrRawImg := none }
    hdrImg8 (p010Copy hdrImg8)).1 rfl rfl

/-- C10: `addEffects` with an empty effect list returns `NO_ERROR` and
acts as the identity: the output descriptor equals the input descriptor
and the first `W*H` (monochrome) resp. `W*H*3/2` (YUV 4:2:0) bytes of
the output are a byte-for-byte copy of the input. -/
theorem addEffects_empty_identity (junk : Buf) (tmp0 : UImg) (i o : UImg)
    (dIn dOut : Buf) (hi : i.data = some dIn) (ho : o.data = some dOut)
    (hfmt : i.pixelFormat = .YUV420 ∨ i.pixelFormat = .MONOCHROME) :
    ∃ r, addEffects junk tmp0 (some i) [] (some o) = .ok r ∧
      r.width = i.width ∧ r.height = i.height ∧ r.gamut = i.gamut ∧
      r.pixelFormat = i.pixelFormat ∧ r.lumaStride = i.lumaStride ∧
      r.chromaStride = i.chromaStride ∧
      ∃ b, r.data = some b ∧
        ∀ idx, idx < (if i.pixelFormat = .MONOCHROME then i.width * i.height
            else i.width * i.height * 3 / 2) → b idx = dIn idx := by
  unfold addEffects
  dsimp only
  rw [hi, ho]
  simp only [Option.isNone_some, Bool.or_self, Bool.false_eq_true, if_false]
  refine ⟨_, rfl, rfl, rfl, rfl, rfl, rfl, rfl, _, rfl, ?_⟩
  intro idx hidx
  dsimp only [Option.getD]
  rcases hfmt with h | h
  · have hsz : (if (PixelFormat.YUV420 = PixelFormat.MONOCHROME) then
        i.width * i.height else i.width * i.height * 3 / 2) =
        i.width * i.height * 3 / 2 := if_neg (by decide)
    rw [h] at hidx ⊢
    rw [hsz] at hidx ⊢
    exact if_pos hidx
  · have hsz : (if (PixelFormat.MONOCHROME = PixelFormat.MONOCHROME) then
        i.width * i.height else i.width * i.height * 3 / 2) =
        i.width * i.height := if_pos rfl
    rw [h] at hidx ⊢
    rw [hsz] at hidx ⊢
    exact if_pos hidx

/-- C10 witness: the empty effect list on the concrete 8x8 YUV image. -/
theorem addEffects_empty_identity_witness :
    sdrImg8.data = some zeroBuf ∧
      ∃ r, addEffects zeroBuf tmpUninit (some sdrImg8) [] (some sdrImg8) = .ok r ∧
        r.width = sdrImg8.width ∧ r.height = sdrImg8.height ∧
        r.gamut = sdrImg8.gamut ∧ r.pixelFormat = sdrImg8.pixelFormat ∧
        r.lumaStride = sdrImg8.lumaStride ∧ r.chromaStride = sdrImg8.chromaStride ∧
        ∃ b, r.data = some b ∧
          ∀ idx, idx < (if sdrImg8.pixelFormat = .MONOCHROME then
              sdrImg8.width * sdrImg8.height
            else sdrImg8.width * sdrImg8.height * 3 / 2) → b idx = zeroBuf idx := by
  exact ⟨rfl, addEffects_empty_identity zeroBuf tmpUninit sdrImg8 sdrImg8
    zeroBuf zeroBuf rfl rfl (Or.inl rfl)⟩

/-- C1: for equal-dimension SDR/HDR inputs with specified gamuts and a
supported HDR transfer function, `generateGainMap` succeeds and the
gain-map buffer is MONOCHROME of width `W/4`, height `H/4`, luma stride
`W/4`, with no chroma plane. -/
theorem generateGainMap_output_descriptor
    (enc : Nat → Nat → Nat) (y p : UImg) (tf : TransferFunction)
    (hyd : y.data.isSome) (hyc : y.chromaData.isSome)
    (hpd : p.data.isSome) (hpc : p.chromaData.isSome)
    (hW : y.width = p.width) (hH : y.height = p.height)
    (hdivW : 4 ∣ y.width) (hdivH : 4 ∣ y.height)
    (hyg : y.gamut ≠ .UNSPECIFIED) (hpg : p.gamut ≠ .UNSPECIFIED)
    (htf : tf ≠ .OTHER) :
    ∃ r, generateGainMap enc (some y) (some p) tf false false = .ok r ∧
      r.dest.width = y.width / 4 ∧ r.dest.height = y.height / 4 ∧
      r.dest.lumaStride = y.width / 4 ∧
      r.dest.pixelFormat = .MONOCHROME ∧
      r.dest.chromaData = none ∧ r.dest.chromaStride = 0 := by
  have hyd2 : y.data.isNone = false := by
    cases hd : y.data <;> simp [hd] at hyd ⊢
  have hyc2 : y.chromaData.isNone = false := by
    cases hd : y.chromaData <;> simp [hd] at hyc ⊢
  have hpd2 : p.data.isNone = false := by
    cases hd : p.data <;> simp [hd] at hpd ⊢
  have hpc2 : p.chromaData.isNone = false := by
    cases hd : p.chromaData <;> simp [hd] at hpc ⊢
  unfold generateGainMap
  dsimp only
  rw [hyd2, hyc2, hpd2, hpc2]
  rw [if_neg (by simp)]
  rw [if_neg (by simp [hW, hH])]
  rw [if_neg (by simp [hyg, hpg])]
  cases tf
  case OTHER => exact absurd rfl htf
  all_goals exact ⟨_, rfl, rfl, rfl, rfl, rfl, rfl, rfl⟩

/-- C1 witness: the 8x8 SDR/HDR pair with HLG transfer. -/
theorem generateGainMap_output_descriptor_witness :
    (4 ∣ sdrImg8.width) ∧
      ∃ r, generateGainMap encZero (some sdrImg8) (some hdrImg8) .HLG false false
          = .ok r ∧
        r.dest.width = sdrImg8.width / 4 ∧ r.dest.height = sdrImg8.height / 4 ∧
        r.dest.lumaStride = sdrImg8.width / 4 ∧
        r.dest.pixelFormat = .MONOCHROME ∧
        r.dest.chromaData = none ∧ r.dest.chromaStride = 0 := by
  refine ⟨by decide, ?_⟩
  exact generateGainMap_output_descriptor encZero sdrImg8 hdrImg8 .HLG
    rfl rfl rfl rfl rfl rfl (by decide) (by decide)
    (by decide) (by decide) (by decide)

/-- C2: every successful `generateGainMap` emits metadata with version
"1.0", gamma 1, zero offsets, `minContentBoost = hdrCapacityMin = 1`,
`maxContentBoost = hdrCapacityMax = hdrWhiteNits/203` (1000 nits for
HLG/LINEAR, 10000 for PQ), and the four values are ordered
`min ≤ capMin ≤ capMax ≤ max`. -/
theorem generateGainMap_metadata_fixed
    (enc : Nat → Nat → Nat) (y p : UImg) (tf : TransferFunction)
    (mN dN : Bool) (r : GenGainMapResult)
    (h : generateGainMap enc (some y) (some p) tf mN dN = .ok r) :
    r.metadata.version = "1.0" ∧ r.metadata.gamma = 1 ∧
      r.metadata.offsetSdr = 0 ∧ r.metadata.offsetHdr = 0 ∧
      r.metadata.minContentBoost = 1 ∧ r.metadata.hdrCapacityMin = 1 ∧
      r.metadata.maxContentBoost =
        (if tf = .PQ then 10000 else 1000) / 203 ∧
      r.metadata.hdrCapacityMax = r.metadata.maxContentBoost ∧
      r.metadata.minContentBoost ≤ r.metadata.hdrCapacityMin ∧
      r.metadata.hdrCapacityMin ≤ r.metadata.hdrCapacityMax ∧
      r.metadata.hdrCapacityMax ≤ r.metadata.maxContentBoost := by
  cases tf <;>
    unfold generateGainMap at h <;>
    dsimp only at h <;>
    split_ifs at h <;>
    try exact Except.noConfusion h
  all_goals
    injection h with h
  all_goals
    subst h
  all_goals
    refine ⟨rfl, rfl, rfl, rfl, rfl, rfl, ?_, rfl, le_refl _, ?_, le_refl _⟩
  · rw [if_neg (by decide)]
    norm_num [hdrWhiteNitsOf, kHlgMaxNits, kSdrWhiteNits]
  · norm_num [hdrWhiteNitsOf, kHlgMaxNits, kSdrWhiteNits]
  · rw [if_neg (by decide)]
    norm_num [hdrWhiteNitsOf, kHlgMaxNits, kSdrWhiteNits]
  · norm_num [hdrWhiteNitsOf, kHlgMaxNits, kSdrWhiteNits]
  · rw [if_pos rfl]
    norm_num [hdrWhiteNitsOf, kPqMaxNits, kSdrWhiteNits]
  · norm_num [hdrWhiteNitsOf, kPqMaxNits, kSdrWhiteNits]

/-- C2 witness: HLG emission on the 8x8 pair has version "1.0" and
`maxContentBoost = 1000/203`. -/
theorem generateGainMap_metadata_fixed_witness :
    ∃ r, generateGainMap encZero (some sdrImg8) (some hdrImg8) .HLG false false
        = .ok r ∧ r.metadata.version = "1.0" ∧
      r.metadata.maxContentBoost = 1000 / 203 := by
  have hr : generateGainMap encZero (some sdrImg8) (some hdrImg8) .HLG false false
      = .ok ⟨⟨2, 2, .UNSPECIFIED, .MONOCHROME, 2, 0,
          some (fun idx => encZero (idx % 2) (idx / 2)), none⟩,
        ⟨kGainMapVersion, kHlgMaxNits / kSdrWhiteNits, 1, 1, 0, 0, 1,
          kHlgMaxNits / kSdrWhiteNits⟩⟩ := rfl
  have h := generateGainMap_metadata_fixed encZero sdrImg8 hdrImg8 .HLG
    false false _ hr
  refine ⟨_, hr, h.1, ?_⟩
  rw [h.2.2.2.2.2.2.1, if_neg (by decide)]

/-- C3 (amended): `applyGainMap` returns `BAD_PTR` whenever the SDR
image, gain-map image, metadata or destination STRUCT pointer is null,
or the SDR data/chroma or gain-map data pointer is null (the
destination's data pointer is not checked); and with those pointers
valid it returns `BAD_METADATA` whenever any metadata precondition is
violated.  In both cases no output is produced. -/
theorem applyGainMap_validation (ap : Nat → Nat) (a g : Option UImg)
    (m : Option Metadata) (fmt : OutputFormat) (boost : ℚ) (d : Option UImg) :
    (applyGainMapNullArgs a g m d →
      applyGainMap ap a g m fmt boost d = .error .BAD_PTR) ∧
    (¬ applyGainMapNullArgs a g m d →
      ∀ mm, m = some mm → metadataRejected mm →
        applyGainMap ap a g m fmt boost d = .error .BAD_METADATA) := by
  constructor
  · intro hnull
    unfold applyGainMapNullArgs at hnull
    rcases hnull with h | h | h | h | ⟨y, hy, hyd⟩ | ⟨gg, hg, hgd⟩
    · subst h; cases g <;> cases m <;> cases d <;> rfl
    · subst h; cases a <;> cases m <;> cases d <;> rfl
    · subst h; cases a <;> cases g <;> cases d <;> rfl
    · subst h; cases a <;> cases g <;> cases m <;> rfl
    · subst hy
      cases g with
      | none => cases m <;> cases d <;> rfl
      | some gg =>
        cases m with
        | none => cases d <;> rfl
        | some mm =>
          cases d with
          | none => rfl
          | some dd => rcases hyd with h | h <;> simp [applyGainMap, h]
    · subst hg
      cases a with
      | none => cases m <;> cases d <;> rfl
      | some y =>
        cases m with
        | none => cases d <;> rfl
        | some mm =>
          cases d with
          | none => rfl
          | some dd => simp [applyGainMap, hgd]
  · intro hnonnull mm hm hbad
    subst hm
    cases a with
    | none => exact absurd (Or.inl rfl) hnonnull
    | some y =>
      cases g with
      | none => exact absurd (Or.inr (Or.inl rfl)) hnonnull
      | some gg =>
        cases d with
        | none => exact absurd (Or.inr (Or.inr (Or.inr (Or.inl rfl)))) hnonnull
        | some dd =>
          have hyd : ¬(y.data = none ∨ y.chromaData = none) := fun hh =>
            hnonnull (Or.inr (Or.inr (Or.inr (Or.inr (Or.inl ⟨y, rfl, hh⟩)))))
          have hgd : ¬gg.data = none := fun hh =>
            hnonnull (Or.inr (Or.inr (Or.inr (Or.inr (Or.inr ⟨gg, rfl, hh⟩)))))
          have h1 : y.data.isNone = false := by
            cases h1 : y.data
            · exact absurd (Or.inl h1) hyd
            · rfl
          have h2 : y.chromaData.isNone = false := by
            cases h2 : y.chromaData
            · exact absurd (Or.inr h2) hyd
            · rfl
          have h3 : gg.data.isNone = false := by
            cases h3 : gg.data
            · exact absurd h3 hgd
            · rfl
          unfold applyGainMap
          dsimp only
          rw [h1, h2, h3]
          rw [if_neg (by simp)]
          by_cases hv : mm.version ≠ kGainMapVersion
          · rw [if_pos hv]
          · rw [if_neg hv]
            by_cases hg1 : mm.gamma ≠ 1
            · rw [if_pos hg1]
            · rw [if_neg hg1]
              by_cases hof : mm.offsetSdr ≠ 0 ∨ mm.offsetHdr ≠ 0
              · rw [if_pos hof]
              · rw [if_neg hof]
                by_cases hcap : mm.hdrCapacityMin ≠ mm.minContentBoost ∨
                    mm.hdrCapacityMax ≠ mm.maxContentBoost
                · rw [if_pos hcap]
                · exfalso
                  push_neg at hv hg1 hof hcap
                  unfold metadataRejected at hbad
                  rcases hbad with hb | hb | hb | hb | hb | hb
                  · exact hb hv
                  · exact hb hg1
                  · exact hb hof.1
                  · exact hb hof.2
                  · exact hb hcap.1
                  · exact hb hcap.2

/-- Metadata violating the gamma precondition. -/
def badGammaMeta : Metadata := { goodMeta with gamma := 2 }

/-- C3 witness: a null SDR pointer gives `BAD_PTR`; valid pointers with
gamma 2 give `BAD_METADATA`. -/
theorem applyGainMap_validation_witness :
    applyGainMap (fun _ => 0) none (some mapImg2) (some goodMeta)
        .HDR_LINEAR 4 (some sdrImg8) = .error .BAD_PTR ∧
      applyGainMap (fun _ => 0) (some sdrImg8) (some mapImg2) (some badGammaMeta)
        .HDR_LINEAR 4 (some sdrImg8) = .error .BAD_METADATA := by
  constructor
  · exact (applyGainMap_validation (fun _ => 0) none (some mapImg2)
      (some goodMeta) .HDR_LINEAR 4 (some sdrImg8)).1 (Or.inl rfl)
  · refine (applyGainMap_validation (fun _ => 0) (some sdrImg8) (some mapImg2)
      (some badGammaMeta) .HDR_LINEAR 4 (some sdrImg8)).2 ?_
      badGammaMeta rfl (by decide)
    intro h
    rcases h with h | h | h | h | ⟨y, hy, hyd⟩ | ⟨gg, hg, hgd⟩
    · exact Option.noConfusion h
    · exact Option.noConfusion h
    · exact Option.noConfusion h
    · exact Option.noConfusion h
    · injection hy with hy
      subst hy
      rcases hyd with h | h <;> exact Option.noConfusion h
    · injection hg with hg
      subst hg
      exact Option.noConfusion hgd

/-- C3 counterexample: with every input pointer valid but the
DESTINATION's `data` pointer null, `applyGainMap` does not return
`BAD_PTR` — it proceeds (the source would write through the null
pointer), so the claim's "destination ... (or their data pointers)"
clause does not hold. -/
theorem applyGainMap_dest_data_not_checked :
    destNoData.data = none ∧
      (applyGainMap (fun _ => 0) (some sdrImg8) (some mapImg2) (some goodMeta)
        .HDR_LINEAR 4 (some destNoData)).isOk = true := by
  exact ⟨rfl, rfl⟩

/-- C5 (amended): when the width ratio of SDR image to gain map is not
integral (`sdr.width % map.width ≠ 0`), `applyGainMap` rejects the
input with `UNSUPPORTED_MAP_SCALE_FACTOR` before any sampling: the
bilinear fallback is unreachable because the scale factor is computed
by integer division after this check. -/
theorem applyGainMap_nonintegral_scale_rejected (ap : Nat → Nat)
    (y g d : UImg) (mm : Metadata) (fmt : OutputFormat) (boost : ℚ)
    (h1 : y.data.isNone = false) (h2 : y.chromaData.isNone = false)
    (h3 : g.data.isNone = false)
    (hmeta : ¬ metadataRejected mm)
    (hmod : y.width % g.width ≠ 0) :
    applyGainMap ap (some y) (some g) (some mm) fmt boost (some d) =
      .error .UNSUPPORTED_MAP_SCALE_FACTOR := by
  unfold metadataRejected at hmeta
  push_neg at hmeta
  obtain ⟨hv, hg1, ho1, ho2, hc1, hc2⟩ := hmeta
  unfold applyGainMap
  dsimp only
  rw [h1, h2, h3]
  rw [if_neg (by simp)]
  rw [if_neg (by simp [hv])]
  rw [if_neg (by simp [hg1])]
  rw [if_neg (by simp [ho1, ho2])]
  rw [if_neg (by simp [hc1, hc2])]
  rw [if_pos (Or.inl hmod)]

/-- C5 witness: theorem applied to the 6x6 SDR image and 4x4 map. -/
theorem applyGainMap_nonintegral_scale_rejected_witness :
    applyGainMap (fun _ => 0) (some sdrImg6) (some mapImg4) (some goodMeta)
      .HDR_LINEAR 4 (some sdrImg8) = .error .UNSUPPORTED_MAP_SCALE_FACTOR := by
  exact applyGainMap_nonintegral_scale_rejected (fun _ => 0) sdrImg6 mapImg4
    sdrImg8 goodMeta .HDR_LINEAR 4 rfl rfl rfl (by decide) (by decide)

/-- C5 counterexample: at the concrete non-integral-ratio input the
call does NOT succeed (the claim asserted bilinear fallback success);
it evaluates to `UNSUPPORTED_MAP_SCALE_FACTOR`. -/
theorem applyGainMap_nonintegral_scale_counterexample :
    applyGainMap (fun _ => 0) (some sdrImg6) (some mapImg4) (some goodMeta)
      .HDR_LINEAR 4 (some sdrImg8) = .error .UNSUPPORTED_MAP_SCALE_FACTOR := by
  rfl

/-- C6: for any YUV 4:2:0 or monochrome input, Rotate(90) yields a
luma plane of width H and height W with `out[i][j] = in[H-1-j][i]`;
Rotate(180) preserves dimensions with `out[i][j] = in[H-1-i][W-1-j]`;
Rotate(270) yields width H and height W with `out[i][j] = in[j][W-1-i]`;
and the colour gamut and pixel format are copied unchanged. -/
theorem rotate_rotations (i o : UImg) (inL oldL : Buf)
    (hi : i.data = some inL) (ho : o.data = some oldL)
    (hfmt : i.pixelFormat = .YUV420 ∨ i.pixelFormat = .MONOCHROME)
    (hstride : i.width ≤ effLumaStride i) :
    (∃ r, rotate (some i) 90 (some o) = .ok r ∧
      r.width = i.height ∧ r.height = i.width ∧ r.lumaStride = i.height ∧
      r.gamut = i.gamut ∧ r.pixelFormat = i.pixelFormat ∧
      ∃ b, r.data = some b ∧ ∀ y, y < i.width → ∀ x, x < i.height →
        b (y * i.height + x) =
          inL ((i.height - 1 - x) * effLumaStride i + y)) ∧
    (∃ r, rotate (some i) 180 (some o) = .ok r ∧
      r.width = i.width ∧ r.height = i.height ∧
      r.lumaStride = effLumaStride i ∧
      r.gamut = i.gamut ∧ r.pixelFormat = i.pixelFormat ∧
      ∃ b, r.data = some b ∧ ∀ y, y < i.height → ∀ x, x < i.width →
        b (y * effLumaStride i + x) =
          inL ((i.height - 1 - y) * effLumaStride i + (i.width - 1 - x))) ∧
    (∃ r, rotate (some i) 270 (some o) = .ok r ∧
      r.width = i.height ∧ r.height = i.width ∧ r.lumaStride = i.height ∧
      r.gamut = i.gamut ∧ r.pixelFormat = i.pixelFormat ∧
      ∃ b, r.data = some b ∧ ∀ y, y < i.width → ∀ x, x < i.height →
        b (y * i.height + x) =
          inL (x * effLumaStride i + (i.width - 1 - y))) := by
  refine ⟨?_, ?_, ?_⟩
  · -- degree 90
    unfold rotate
    dsimp only
    rw [hi, ho]
    rw [if_neg (by simp)]
    rw [if_neg (by decide)]
    rcases hfmt with h | h <;>
      rw [if_neg (by simp [h])] <;>
      rw [if_pos rfl] <;>
      unfold writePlanesOut2 <;>
      dsimp only
    · rw [if_neg (by simp [h])]
      refine ⟨_, rfl, rfl, rfl, rfl, rfl, rfl, _, rfl, ?_⟩
      intro y hy x hx
      have hlt : y * i.height + x < i.height * i.width :=
        flatIdx_lt y x i.height i.width hy hx
      rw [planeWriteAt_below _ _ _ _ _ _ _
        (lt_of_lt_of_le hlt (Nat.le_add_right _ _))]
      rw [planeWriteAt_below _ _ _ _ _ _ _ hlt]
      rw [planeWrite_get _ _ _ _ _ y x hy hx (le_refl _)]
      simp only [Option.getD_some]
      have he : i.height - x - 1 = i.height - 1 - x := by omega
      rw [he]
    · rw [if_pos h]
      refine ⟨_, rfl, rfl, rfl, rfl, rfl, rfl, _, rfl, ?_⟩
      intro y hy x hx
      rw [planeWrite_get _ _ _ _ _ y x hy hx (le_refl _)]
      simp only [Option.getD_some]
      have he : i.height - x - 1 = i.height - 1 - x := by omega
      rw [he]
  · -- degree 180
    unfold rotate
    dsimp only
    rw [hi, ho]
    rw [if_neg (by simp)]
    rw [if_neg (by decide)]
    rcases hfmt with h | h <;>
      rw [if_neg (by simp [h])] <;>
      rw [if_neg (by decide)] <;>
      rw [if_pos rfl] <;>
      unfold writePlanesOut2 <;>
      dsimp only
    · rw [if_neg (by simp [h])]
      refine ⟨_, rfl, rfl, rfl, rfl, rfl, rfl, _, rfl, ?_⟩
      intro y hy x hx
      have hlt : y * effLumaStride i + x < effLumaStride i * i.height :=
        flatIdx_lt y x (effLumaStride i) i.height hy (lt_of_lt_of_le hx hstride)
      rw [planeWriteAt_below _ _ _ _ _ _ _
        (lt_of_lt_of_le hlt (Nat.le_add_right _ _))]
      rw [planeWriteAt_below _ _ _ _ _ _ _ hlt]
      rw [planeWrite_get _ _ _ _ _ y x hy hx hstride]
      simp only [Option.getD_some]
      have he1 : i.height - y - 1 = i.height - 1 - y := by omega
      have he2 : i.width - x - 1 = i.width - 1 - x := by omega
      rw [he1, he2]
    · rw [if_pos h]
      refine ⟨_, rfl, rfl, rfl, rfl, rfl, rfl, _, rfl, ?_⟩
      intro y hy x hx
      rw [planeWrite_get _ _ _ _ _ y x hy hx hstride]
      simp only [Option.getD_some]
      have he1 : i.height - y - 1 = i.height - 1 - y := by omega
      have he2 : i.width - x - 1 = i.width - 1 - x := by omega
      rw [he1, he2]
  · -- degree 270
    unfold rotate
    dsimp only
    rw [hi, ho]
    rw [if_neg (by simp)]
    rw [if_neg (by decide)]
    rcases hfmt with h | h <;>
      rw [if_neg (by simp [h])] <;>
      rw [if_neg (by decide)] <;>
      rw [if_neg (by decide)] <;>
      unfold writePlanesOut2 <;>
      dsimp only
    · rw [if_neg (by simp [h])]
      refine ⟨_, rfl, rfl, rfl, rfl, rfl, rfl, _, rfl, ?_⟩
      intro y hy x hx
      have hlt : y * i.height + x < i.height * i.width :=
        flatIdx_lt y x i.height i.width hy hx
      rw [planeWriteAt_below _ _ _ _ _ _ _
        (lt_of_lt_of_le hlt (Nat.le_add_right _ _))]
      rw [planeWriteAt_below _ _ _ _ _ _ _ hlt]
      rw [planeWrite_get _ _ _ _ _ y x hy hx (le_refl _)]
      simp only [Option.getD_some]
      have he : i.width - y - 1 = i.width - 1 - y := by omega
      rw [he]
    · rw [if_pos h]
      refine ⟨_, rfl, rfl, rfl, rfl, rfl, rfl, _, rfl, ?_⟩
      intro y hy x hx
      rw [planeWrite_get _ _ _ _ _ y x hy hx (le_refl _)]
      simp only [Option.getD_some]
      have he : i.width - y - 1 = i.width - 1 - y := by omega
      rw [he]

/-- C6 witness: Rotate(90) on the concrete 8x8 monochrome image. -/
theorem rotate_rotations_witness :
    monoImg8.width ≤ effLumaStride monoImg8 ∧
      ∃ r, rotate (some monoImg8) 90 (some monoImg8) = .ok r ∧
        r.width = monoImg8.height ∧ r.height = monoImg8.width ∧
        r.lumaStride = monoImg8.height ∧
        r.gamut = monoImg8.gamut ∧ r.pixelFormat = monoImg8.pixelFormat ∧
        ∃ b, r.data = some b ∧
          ∀ y, y < monoImg8.width → ∀ x, x < monoImg8.height →
            b (y * monoImg8.height + x) =
              zeroBuf ((monoImg8.height - 1 - x) * effLumaStride monoImg8 + y) := by
  exact ⟨by decide, (rotate_rotations monoImg8 monoImg8 zeroBuf zeroBuf
    rfl rfl (Or.inr rfl) (by decide)).1⟩

/-- Reading a written luma sample back from the tone-mapped plane. -/
theorem toneMapLumaBuf_sample (srcY : Buf) (sls w h dls : Nat) (old : Buf)
    (y x : Nat) (hy : y < h) (hx : x < w) (hws : w ≤ dls) :
    toneMapLumaBuf srcY sls w h dls old (y * dls + x) =
      toneMapSample (srcY (y * sls + x)) := by
  have hxd : x < dls := lt_of_lt_of_le hx hws
  unfold toneMapLumaBuf
  dsimp only
  rw [flatIdx_div y x dls hxd, flatIdx_mod y x dls hxd]
  rw [if_pos hy, if_pos hx]

/-- The luma stride padding of the tone-mapped plane is zero. -/
theorem toneMapLumaBuf_pad (srcY : Buf) (sls w h dls : Nat) (old : Buf)
    (y x : Nat) (hy : y < h) (hx1 : w ≤ x) (hx2 : x < dls) :
    toneMapLumaBuf srcY sls w h dls old (y * dls + x) = 0 := by
  unfold toneMapLumaBuf
  dsimp only
  rw [flatIdx_div y x dls hx2, flatIdx_mod y x dls hx2]
  rw [if_pos hy, if_neg (Nat.not_lt.mpr hx1)]

/-- The U rows fit below the V offset `dcs * h / 2`. -/
theorem chromaRegionBound (dcs h : Nat) : dcs * (h / 2) ≤ dcs * h / 2 := by
  rw [Nat.le_div_iff_mul_le (by norm_num : (0:Nat) < 2)]
  calc dcs * (h / 2) * 2 = dcs * (h / 2 * 2) := by ring
    _ ≤ dcs * h := Nat.mul_le_mul (le_refl dcs) (Nat.div_mul_le_self h 2)

/-- Reading a written U sample back from the tone-mapped chroma buffer. -/
theorem toneMapChromaBuf_sampleU (srcUV : Buf) (scs w h dcs : Nat)
    (old : Buf) (y x : Nat) (hy : y < h / 2) (hx : x < w / 2)
    (hws : w / 2 ≤ dcs) :
    toneMapChromaBuf srcUV scs w h dcs old (y * dcs + x) =
      toneMapSample (srcUV (y * scs + 2 * x)) := by
  have hxd : x < dcs := lt_of_lt_of_le hx hws
  have hblt : y * dcs + x < dcs * (h / 2) := flatIdx_lt y x dcs (h / 2) hy hxd
  have hvoff : y * dcs + x < dcs * h / 2 :=
    lt_of_lt_of_le hblt (chromaRegionBound dcs h)
  unfold toneMapChromaBuf
  dsimp only
  rw [if_pos hvoff]
  rw [flatIdx_div y x dcs hxd, flatIdx_mod y x dcs hxd]
  rw [if_pos hy, if_pos hx]
  have hsh : x <<< 1 = 2 * x := by rw [Nat.shiftLeft_eq]; ring
  rw [hsh]

/-- Reading a written V sample back from the tone-mapped chroma buffer. -/
theorem toneMapChromaBuf_sampleV (srcUV : Buf) (scs w h dcs : Nat)
    (old : Buf) (y x : Nat) (hy : y < h / 2) (hx : x < w / 2)
    (hws : w / 2 ≤ dcs) :
    toneMapChromaBuf srcUV scs w h dcs old (dcs * h / 2 + (y * dcs + x)) =
      toneMapSample (srcUV (y * scs + 2 * x + 1)) := by
  have hxd : x < dcs := lt_of_lt_of_le hx hws
  unfold toneMapChromaBuf
  dsimp only
  rw [if_neg (Nat.not_lt.mpr (Nat.le_add_right _ _))]
  rw [Nat.add_sub_cancel_left]
  rw [flatIdx_div y x dcs hxd, flatIdx_mod y x dcs hxd]
  rw [if_pos hy, if_pos hx]
  have hsh : x <<< 1 = 2 * x := by rw [Nat.shiftLeft_eq]; ring
  rw [hsh]

/-- The chroma stride padding of a U row is zero. -/
theorem toneMapChromaBuf_padU (srcUV : Buf) (scs w h dcs : Nat)
    (old : Buf) (y x : Nat) (hy : y < h / 2) (hx1 : w / 2 ≤ x)
    (hx2 : x < dcs) :
    toneMapChromaBuf srcUV scs w h dcs old (y * dcs + x) = 0 := by
  have hblt : y * dcs + x < dcs * (h / 2) := flatIdx_lt y x dcs (h / 2) hy hx2
  have hvoff : y * dcs + x < dcs * h / 2 :=
    lt_of_lt_of_le hblt (chromaRegionBound dcs h)
  unfold toneMapChromaBuf
  dsimp only
  rw [if_pos hvoff]
  rw [flatIdx_div y x dcs hx2, flatIdx_mod y x dcs hx2]
  rw [if_pos hy, if_neg (Nat.not_lt.mpr hx1)]

/-- The chroma stride padding of a V row is zero. -/
theorem toneMapChromaBuf_padV (srcUV : Buf) (scs w h dcs : Nat)
    (old : Buf) (y x : Nat) (hy : y < h / 2) (hx1 : w / 2 ≤ x)
    (hx2 : x < dcs) :
    toneMapChromaBuf srcUV scs w h dcs old (dcs * h / 2 + (y * dcs + x)) = 0 := by
  unfold toneMapChromaBuf
  dsimp only
  rw [if_neg (Nat.not_lt.mpr (Nat.le_add_right _ _))]
  rw [Nat.add_sub_cancel_left]
  rw [flatIdx_div y x dcs hx2, flatIdx_mod y x dcs hx2]
  rw [if_pos hy, if_neg (Nat.not_lt.mpr hx1)]

/-- C4: for equal-dimension P010 source and destination, every
tone-mapped output sample equals `(v >> 6) >> 2 & 0xff` of the 16-bit
source sample — for luma and for the U/V samples deinterleaved into
separate planes — and the stride padding at the right edge of every
output row is zero. -/
theorem toneMap_reduction (s d : UImg) (srcY srcUV oldY oldC : Buf)
    (hsd : s.data = some srcY) (hsc : s.chromaData = some srcUV)
    (hdd : d.data = some oldY) (hdc : d.chromaData = some oldC)
    (hw : s.width = d.width) (hh : s.height = d.height)
    (hls : s.width ≤ d.lumaStride) (hcs : s.width / 2 ≤ d.chromaStride) :
    ∃ r, toneMap (some s) (some d) = .ok r ∧ r.gamut = s.gamut ∧
      ∃ ly cb, r.data = some ly ∧ r.chromaData = some cb ∧
        (∀ y, y < s.height → ∀ x, x < s.width →
          ly (y * d.lumaStride + x) =
            ((srcY (y * s.lumaStride + x) % 65536) >>> 6 >>> 2) &&& 0xff) ∧
        (∀ y, y < s.height → ∀ x, s.width ≤ x → x < d.lumaStride →
          ly (y * d.lumaStride + x) = 0) ∧
        (∀ y, y < s.height / 2 → ∀ x, x < s.width / 2 →
          cb (y * d.chromaStride + x) =
            ((srcUV (y * s.chromaStride + 2 * x) % 65536) >>> 6 >>> 2) &&& 0xff) ∧
        (∀ y, y < s.height / 2 → ∀ x, x < s.width / 2 →
          cb (d.chromaStride * s.height / 2 + (y * d.chromaStride + x)) =
            ((srcUV (y * s.chromaStride + 2 * x + 1) % 65536) >>> 6 >>> 2) &&& 0xff) ∧
        (∀ y, y < s.height / 2 → ∀ x, s.width / 2 ≤ x → x < d.chromaStride →
          cb (y * d.chromaStride + x) = 0 ∧
            cb (d.chromaStride * s.height / 2 + (y * d.chromaStride + x)) = 0) := by
  unfold toneMap
  dsimp only
  rw [if_neg (by simp [hw, hh])]
  rw [hsd, hsc, hdd, hdc]
  refine ⟨_, rfl, rfl, _, _, rfl, rfl, ?_, ?_, ?_, ?_, ?_⟩
  · intro y hy x hx
    rw [toneMapLumaBuf_sample _ _ _ _ _ _ y x hy hx hls]
    simp only [Option.getD_some, toneMapSample]
  · intro y hy x hx1 hx2
    exact toneMapLumaBuf_pad _ _ _ _ _ _ y x hy hx1 hx2
  · intro y hy x hx
    rw [toneMapChromaBuf_sampleU _ _ _ _ _ _ y x hy hx hcs]
    simp only [Option.getD_some, toneMapSample]
  · intro y hy x hx
    rw [toneMapChromaBuf_sampleV _ _ _ _ _ _ y x hy hx hcs]
    simp only [Option.getD_some, toneMapSample]
  · intro y hy x hx1 hx2
    exact ⟨toneMapChromaBuf_padU _ _ _ _ _ _ y x hy hx1 hx2,
      toneMapChromaBuf_padV _ _ _ _ _ _ y x hy hx1 hx2⟩

/-- C4 witness: tone mapping the concrete 8x8 P010 image into the 8x8
YUV destination. -/
theorem toneMap_reduction_witness :
    hdrImg8.width = sdrImg8.width ∧
      ∃ r, toneMap (some hdrImg8) (some sdrImg8) = .ok r ∧
        r.gamut = hdrImg8.gamut ∧
        ∃ ly cb, r.data = some ly ∧ r.chromaData = some cb ∧
          (∀ y, y < hdrImg8.height → ∀ x, x < hdrImg8.width →
            ly (y * sdrImg8.lumaStride + x) =
              ((zeroBuf (y * hdrImg8.lumaStride + x) % 65536) >>> 6 >>> 2) &&& 0xff) ∧
          (∀ y, y < hdrImg8.height → ∀ x, hdrImg8.width ≤ x →
            x < sdrImg8.lumaStride → ly (y * sdrImg8.lumaStride + x) = 0) ∧
          (∀ y, y < hdrImg8.height / 2 → ∀ x, x < hdrImg8.width / 2 →
            cb (y * sdrImg8.chromaStride + x) =
              ((zeroBuf (y * hdrImg8.chromaStride + 2 * x) % 65536) >>> 6 >>> 2)
                &&& 0xff) ∧
          (∀ y, y < hdrImg8.height / 2 → ∀ x, x < hdrImg8.width / 2 →
            cb (sdrImg8.chromaStride * hdrImg8.height / 2 +
                (y * sdrImg8.chromaStride + x)) =
              ((zeroBuf (y * hdrImg8.chromaStride + 2 * x + 1) % 65536) >>> 6 >>> 2)
                &&& 0xff) ∧
          (∀ y, y < hdrImg8.height / 2 → ∀ x, hdrImg8.width / 2 ≤ x →
            x < sdrImg8.chromaStride →
            cb (y * sdrImg8.chromaStride + x) = 0 ∧
              cb (sdrImg8.chromaStride * hdrImg8.height / 2 +
                (y * sdrImg8.chromaStride + x)) = 0) := by
  exact ⟨rfl, toneMap_reduction hdrImg8 sdrImg8 zeroBuf zeroBuf zeroBuf zeroBuf
    rfl rfl rfl rfl rfl rfl (by decide) (by decide)⟩

end UltraHdrSpec
